/-
Verification of the message-processing orchestration engine
(ai-multi-agent-system): a shallow embedding in Lean 4 of the
Orchestrator pipeline (orchestrator.py), the pull aggregator and polling
loop (services/message_pull_service.py), and the channel adapters'
pull/dedup behaviour (channels/email_channel.py,
channels/whatsapp_channel.py), together with proofs of the spec's
claims about them.

Python dictionaries become Lean structures; a Python value that may be
`None`/absent becomes `Option`; a call that may raise becomes an
`Except String` value supplied by an environment record (the collaborator
agents, the network, the mail server are external, so their behaviour is
a parameter); `try/except` becomes a `match` on that `Except`.
-/
import Mathlib

namespace MultiAgent

/-! ## Canonical data model (channels/base_channel.py, orchestrator.py)

A canonical message as produced by every channel adapter:
`{message_id, channel, sender, content, timestamp, metadata}`.  Of the
metadata only the email subject is ever read by the orchestrator
(orchestrator.py line 173), so it is the one metadata field kept. -/

structure Message where
  message_id : String
  channel : String
  sender : String
  content : String
  timestamp : String
  metadata_subject : String
  deriving DecidableEq, Repr

/-- Classification dict returned by the classification agent; the
orchestrator treats it opaquely (stored wholesale in the result). -/
structure Classification where
  action_id : String
  category : String
  deriving DecidableEq, Repr

/-- Task dict returned by the task-creation agent; treated opaquely. -/
structure TaskData where
  task_id : String
  action_type : String
  deriving DecidableEq, Repr

/-- Execution result dict.  `orchestrator.py` reads the keys
`execution_status` (line 65) and `user_response` (line 168) with `.get`,
so each is an `Option` (absent key = `none`). -/
structure ExecutionResult where
  execution_status : Option String
  error : Option String
  user_response : Option String
  deriving DecidableEq, Repr

/-- The outcome dict of `Orchestrator.process_message`
(orchestrator.py lines 64-72 and 198-209).  The success-path dict has no
`error` key and the error-path dict sets `classification`, `task` and
`execution` to `None`, so those are `Option`s. -/
structure Outcome where
  status : String
  message_id : String
  channel : String
  error : Option String
  classification : Option Classification
  task : Option TaskData
  execution : Option ExecutionResult
  response_sent : Bool
  deriving DecidableEq, Repr

/-- One call to `MessagePullService.send_response`
(orchestrator.py lines 180-185): the recorded arguments of a
response-send attempt. -/
structure SendAttempt where
  channel : String
  recipient : String
  content : String
  deriving DecidableEq, Repr

/-! ## Stage environment

The collaborators the orchestrator calls are external (opaque agents,
network I/O).  A `StageEnv` records, for one `process_message` call, how
each external call behaves: `.error e` means the call raised an
exception with message `e`; for the two agents `.ok none` additionally
covers a falsy return value (Python `if not classification_result`,
orchestrator.py lines 46 and 53).  `unexpected` injects an exception
raised by any other statement inside the `try` block of
`process_message` (caught at orchestrator.py line 77). -/

structure StageEnv where
  classify_call : Except String (Option Classification)
  create_task_call : Except String (Option TaskData)
  execute_call : Except String ExecutionResult
  send_call : Except String Bool
  unexpected : Option String
  deriving Repr

/-! ## Orchestrator helpers (orchestrator.py lines 107-209) -/

/-- `Orchestrator._classify_message` (lines 107-124): returns the
agent's classification, or `None` when the agent call raised. -/
def classify_message (env : StageEnv) : Option Classification :=
  match env.classify_call with
  | .ok c => c
  | .error _ => none

/-- `Orchestrator._create_task` (lines 126-144): returns the agent's
task dict, or `None` when the agent call raised. -/
def create_task (env : StageEnv) : Option TaskData :=
  match env.create_task_call with
  | .ok t => t
  | .error _ => none

/-- `Orchestrator._execute_task` (lines 146-161): returns the execution
agent's result, or on exception the fixed failed-execution dict
`{"execution_status": "failed", "error": str(e), "user_response":
"An error occurred while processing your request."}`. -/
def execute_task (env : StageEnv) : ExecutionResult :=
  match env.execute_call with
  | .ok r => r
  | .error e =>
      { execution_status := some "failed"
        error := some e
        user_response := some "An error occurred while processing your request." }

/-- `Orchestrator._send_response` (lines 163-196): makes one call to
`message_service.send_response` with the message's channel and sender
and the execution result's `user_response` (default
`'Your request has been processed.'`), returning its boolean, or
`False` when the call raised.  The returned list records the
send attempt that was made. -/
def send_response (env : StageEnv) (msg : Message) (execution_result : ExecutionResult) :
    Bool × List SendAttempt :=
  let response_text := execution_result.user_response.getD "Your request has been processed."
  let attempt : SendAttempt :=
    { channel := msg.channel, recipient := msg.sender, content := response_text }
  match env.send_call with
  | .ok success => (success, [attempt])
  | .error _ => (false, [attempt])

/-- `Orchestrator._create_error_result` (lines 198-209): the error
outcome dict.  Note it performs no send and hard-codes
`response_sent = False`. -/
def create_error_result (msg : Message) (error : String) : Outcome :=
  { status := "error"
    message_id := msg.message_id
    channel := msg.channel
    error := some error
    classification := none
    task := none
    execution := none
    response_sent := false }

/-! ## `Orchestrator.process_message` (orchestrator.py lines 29-79) -/

/-- The `try` block of `process_message` (lines 40-75), returning the
outcome together with the list of send attempts made, or `.error e`
when an exception escapes the block (only the injected `unexpected`
fault can: every helper catches its own collaborator's exceptions). -/
def process_message_body (env : StageEnv) (msg : Message) :
    Except String (Outcome × List SendAttempt) :=
  match env.unexpected with
  | some e => .error e
  | none =>
    match classify_message env with
    | none => .ok (create_error_result msg "Classification failed", [])
    | some classification_result =>
      match create_task env with
      | none => .ok (create_error_result msg "Task creation failed", [])
      | some task_data =>
        let execution_result := execute_task env
        let sent := send_response env msg execution_result
        .ok
          ({ status :=
               if execution_result.execution_status = some "success" then "success"
               else "failed"
             message_id := msg.message_id
             channel := msg.channel
             error := none
             classification := some classification_result
             task := some task_data
             execution := some execution_result
             response_sent := sent.1 }, sent.2)

/-- `process_message` (lines 29-79): the `try` block plus the
`except Exception` handler (lines 77-79) that converts any escaped
fault into `_create_error_result(message, str(e))`.  Total: it returns
a plain outcome for every environment, never an exception. -/
def process_message (env : StageEnv) (msg : Message) : Outcome × List SendAttempt :=
  match process_message_body env msg with
  | .ok r => r
  | .error e => (create_error_result msg e, [])

/-! ## `Orchestrator.process_messages` (orchestrator.py lines 81-105)

The code launches one task per message and awaits
`asyncio.gather(*tasks, return_exceptions=True)`, whose result list is
in the order of the input awaitables: `results[i]` is the value
returned by task `i`, or the exception it raised.  The per-task
behaviour is the parameter `run` (`run m = .error e` means the task for
`m` completed with exception `e`); the replacement loop
(lines 97-103) substitutes `_create_error_result(messages[idx],
str(result))` for an exception. -/

def process_messages (run : Message → Except String Outcome) (messages : List Message) :
    List Outcome :=
  messages.map fun m =>
    match run m with
    | .ok r => r
    | .error e => create_error_result m e

/-! ## `MessagePullService.pull_all_messages`
(services/message_pull_service.py lines 24-56)

`asyncio.gather(pull_email, pull_whatsapp, pull_teams,
return_exceptions=True)` yields one result per adapter in adapter
order: either the adapter's message list or the exception it raised.
The combining loop (lines 43-49) starts from `[]` and `extend`s it with
each non-exception result in order, skipping exceptions. -/

def pull_all_messages (results : List (Except String (List Message))) : List Message :=
  results.foldl
    (fun all_messages r =>
      match r with
      | .ok msgs => all_messages ++ msgs
      | .error _ => all_messages)
    []

/-! ## Channel adapter pulls and deduplication
(channels/email_channel.py lines 29-77,
channels/whatsapp_channel.py lines 27-69)

Both adapters keep a `processed_messages` set (modelled as a
`List String` of ids, used only through membership) and run the same
per-message loop over the provider's batch: skip an id already in the
set, skip an id whose fetch failed (email only; `status != 'OK'`,
line 56), otherwise parse, append the message and add the id to the
set.  `scan_inbox` is that loop; an entry `(id, ok)` is a provider id
with its fetch status (for WhatsApp every entry has `ok = true`). -/

def scan_inbox (processed : List String) : List (String × Bool) → List String × List String
  | [] => ([], processed)
  | (msg_id, fetch_ok) :: rest =>
    if msg_id ∈ processed then scan_inbox processed rest
    else if fetch_ok then
      let result := scan_inbox (msg_id :: processed) rest
      (msg_id :: result.1, result.2)
    else scan_inbox processed rest

/-- How one email pull's external calls behave.  `connect` covers
`IMAP4_SSL`/`login`/`select` (lines 35-37); `search_ok` is
`status == 'OK'` for the UNSEEN search (lines 40-44); `inbox` is the
searched id list with per-id fetch status; `loop_fault k` means an
exception was raised inside the per-message loop after the first `k`
entries were processed (caught by the handler at line 75). -/
structure EmailEnv where
  connect : Except String Unit
  search_ok : Bool
  inbox : List (String × Bool)
  loop_fault : Option (Nat × String)

/-- The body of `EmailChannelHandler.pull_messages` up to the
`except` handler: `.ok (delivered ids, new processed set)` or the
escaped exception.  A mid-loop fault leaves the ids already added in
the set but the collected list is lost with the raise. -/
def email_pull_body (processed : List String) (env : EmailEnv) :
    Except String (List String × List String) :=
  match env.connect with
  | .error e => .error e
  | .ok _ =>
    if !env.search_ok then .ok ([], processed)
    else
      match env.loop_fault with
      | some (_, e) => .error e
      | none => .ok (scan_inbox processed env.inbox)

/-- `EmailChannelHandler.pull_messages` (lines 29-77): the body plus
the `except Exception` handler returning `[]`.  On a transport error
the delivered list is empty; the processed set keeps whatever the
partial loop added before a mid-loop fault. -/
def email_pull (processed : List String) (env : EmailEnv) : List String × List String :=
  match email_pull_body processed env with
  | .ok r => r
  | .error _ =>
    match env.connect, env.loop_fault with
    | .ok _, some (k, _) =>
        if !env.search_ok then ([], processed)
        else ([], (scan_inbox processed (env.inbox.take k)).2)
    | _, _ => ([], processed)

/-- How one WhatsApp pull's external calls behave.  `request` is the
HTTP GET: `.error e` if `httpx` raised, `.ok code` its status code
(lines 39-47); `parsed` the ids in `data['messages']`; `loop_fault` as
for email. -/
structure WhatsAppEnv where
  request : Except String Nat
  parsed : List String
  loop_fault : Option (Nat × String)

/-- The body of `WhatsAppChannelHandler.pull_messages` up to the
`except` handler (lines 29-65): a non-200 status returns `[]`
directly (line 45-47); the per-message loop is `scan_inbox` with every
fetch status `true` (WhatsApp has no per-id fetch). -/
def whatsapp_pull_body (processed : List String) (env : WhatsAppEnv) :
    Except String (List String × List String) :=
  match env.request with
  | .error e => .error e
  | .ok code =>
    if code ≠ 200 then .ok ([], processed)
    else
      match env.loop_fault with
      | some (_, e) => .error e
      | none => .ok (scan_inbox processed (env.parsed.map fun i => (i, true)))

/-- `WhatsAppChannelHandler.pull_messages` (lines 27-69): the body plus
the `except Exception` handler returning `[]`. -/
def whatsapp_pull (processed : List String) (env : WhatsAppEnv) : List String × List String :=
  match whatsapp_pull_body processed env with
  | .ok r => r
  | .error _ =>
    match env.request, env.loop_fault with
    | .ok code, some (k, _) =>
        if code ≠ 200 then ([], processed)
        else ([], (scan_inbox processed ((env.parsed.map fun i => (i, true)).take k)).2)
    | _, _ => ([], processed)

/-- A sequence of pulls on one channel handler within one process
lifetime: the handler's `processed_messages` set is threaded from pull
to pull (it is instance state of the singleton handler).  Returns the
list of delivered batches and the final set. -/
def pull_runs {ε : Type} (pull : List String → ε → List String × List String)
    (processed : List String) : List ε → List (List String) × List String
  | [] => ([], processed)
  | env :: rest =>
    let this_pull := pull processed env
    let later := pull_runs pull this_pull.2 rest
    (this_pull.1 :: later.1, later.2)

/-! ## `MessagePullService.start_polling` and `stop_polling`
(services/message_pull_service.py lines 85-115)

`start_polling` runs `while self.is_running:` around a `try` block
{pull → if messages: callback → sleep(interval)}; the `except` handler
logs and sleeps the same interval.  An iteration is rendered as its
observable event trace.  `stop_polling` only flips `is_running`; it is
consulted solely by the `while` condition at the top of an iteration,
so the flag is modelled as a function of the iteration index giving its
value when that iteration's condition is checked (it can be cleared
concurrently at any point).  The unbounded `while` is run on fuel. -/

/-- Observable events of one polling iteration. -/
inductive PollEv where
  | pull_all
  | process_batch (n : Nat)
  | fault_logged (e : String)
  | sleep_interval
  deriving DecidableEq, Repr

/-- External behaviour of one iteration: the batch `pull_all_messages`
returned (that call returns `[]` rather than raising, see its handler
at lines 54-56) and whether the `await callback(messages)` call raised
(`process_messages` does not raise, but the loop guards it anyway). -/
structure IterEnv where
  batch : List Message
  callback_fault : Option String
  deriving Repr

/-- The event trace of one loop iteration (the `try`/`except` at
lines 96-110): pull, then — when the batch is non-empty — the callback,
whose fault is caught and logged; both the normal path (line 106) and
the handler (line 110) end with `sleep(poll_interval)`. -/
def poll_iteration (env : IterEnv) : List PollEv :=
  PollEv.pull_all ::
    (if env.batch.isEmpty then [PollEv.sleep_interval]
     else
       match env.callback_fault with
       | some e => [PollEv.process_batch env.batch.length, PollEv.fault_logged e,
                    PollEv.sleep_interval]
       | none => [PollEv.process_batch env.batch.length, PollEv.sleep_interval])

/-- `start_polling` as a fuel-bounded unfolding of the `while` loop:
`running k` is the value `self.is_running` has when iteration `k`'s
`while` condition is evaluated, `envs k` that iteration's external
behaviour.  Returns the per-iteration traces, tagged with the
iteration index. -/
def start_polling (running : Nat → Bool) (envs : Nat → IterEnv) :
    Nat → Nat → List (Nat × List PollEv)
  | 0, _ => []
  | fuel + 1, k =>
    if running k then (k, poll_iteration (envs k)) :: start_polling running envs fuel (k + 1)
    else []

/-- The mutable state of `MessagePullService` touched by the lifecycle
methods. -/
structure ServiceState where
  is_running : Bool
  poll_interval : Nat
  deriving DecidableEq, Repr

/-- `stop_polling` (lines 112-115): sets `is_running = False` and
nothing else. -/
def stop_polling (s : ServiceState) : ServiceState :=
  { s with is_running := false }

/-! ## The concurrency gate (orchestrator.py lines 26-27 and 39)

`Orchestrator.__init__` creates `asyncio.Semaphore(max_concurrent_tasks)`
and `process_message` executes its whole body inside
`async with self.semaphore:`.  The claims about it are temporal, so the
gate is given as a small-step system over the states of the concurrent
`process_message` tasks of a batch.  A task is `waiting` before the
semaphore admits it, `active k` while running pipeline stage `k`
(0 = Classify … 3 = Respond) inside the `async with` block, and `done`
after the block exits.  `acquire` needs a free slot — the semaphore
blocks otherwise; `finish` is enabled from any stage because the
`async with` releases the slot on every exit from the block: normal
return, the stage-failure early returns (lines 48 and 55) and the
`except` path (line 79) all leave the block. -/

inductive TaskState where
  | waiting
  | active (stage : Nat)
  | done
  deriving DecidableEq, Repr

/-- Whether a task currently holds a gate slot (is inside the
`async with` block). -/
def TaskState.holds_slot : TaskState → Bool
  | .active _ => true
  | _ => false

/-- Number of tasks currently holding a gate slot. -/
def active_count (tasks : List TaskState) : Nat :=
  tasks.countP TaskState.holds_slot

/-- One scheduler step of a batch of `process_message` tasks sharing
the semaphore of capacity `n`. -/
inductive GateStep (n : Nat) : List TaskState → List TaskState → Prop
  | acquire (l r : List TaskState) :
      active_count (l ++ TaskState.waiting :: r) < n →
      GateStep n (l ++ TaskState.waiting :: r) (l ++ TaskState.active 0 :: r)
  | advance (l r : List TaskState) (k : Nat) :
      k + 1 < 4 →
      GateStep n (l ++ TaskState.active k :: r) (l ++ TaskState.active (k + 1) :: r)
  | finish (l r : List TaskState) (k : Nat) :
      GateStep n (l ++ TaskState.active k :: r) (l ++ TaskState.done :: r)

/-- A batch of `m` tasks starts with every task waiting on the gate. -/
def initial_batch (m : Nat) : List TaskState :=
  List.replicate m TaskState.waiting

/-! ## Concrete fixtures used by witnesses and counterexamples -/

/-- A concrete canonical message. -/
def sample_msg : Message :=
  { message_id := "42", channel := "email", sender := "user@example.com",
    content := "status?", timestamp := "2025-01-01T00:00:00", metadata_subject := "Claim" }

/-- A concrete environment whose classification stage raises while the
outbound send would have succeeded (`send_call = .ok true`). -/
def classify_fails_env : StageEnv :=
  { classify_call := .error "LLM timeout"
    create_task_call := .ok (some { task_id := "t1", action_type := "update" })
    execute_call := .ok { execution_status := some "success", error := none,
                          user_response := some "done" }
    send_call := .ok true
    unexpected := none }

/-- A concrete environment where every stage succeeds. -/
def all_ok_env : StageEnv :=
  { classify_call := .ok (some { action_id := "A7", category := "policy" })
    create_task_call := .ok (some { task_id := "t1", action_type := "update" })
    execute_call := .ok { execution_status := some "success", error := none,
                          user_response := some "done" }
    send_call := .ok true
    unexpected := none }

/-- A concrete environment where execution succeeds but the response
send fails. -/
def send_fails_env : StageEnv :=
  { classify_call := .ok (some { action_id := "A7", category := "policy" })
    create_task_call := .ok (some { task_id := "t1", action_type := "update" })
    execute_call := .ok { execution_status := some "success", error := none,
                          user_response := some "done" }
    send_call := .ok false
    unexpected := none }

/-- A concrete environment whose Execute stage raises. -/
def execute_raises_env : StageEnv :=
  { classify_call := .ok (some { action_id := "A7", category := "policy" })
    create_task_call := .ok (some { task_id := "t1", action_type := "update" })
    execute_call := .error "IDIT 500"
    send_call := .ok true
    unexpected := none }

/-- A concrete environment with an unexpected fault inside the `try`
block of `process_message`. -/
def unexpected_fault_env : StageEnv :=
  { classify_call := .ok (some { action_id := "A7", category := "policy" })
    create_task_call := .ok (some { task_id := "t1", action_type := "update" })
    execute_call := .ok { execution_status := some "success", error := none,
                          user_response := some "done" }
    send_call := .ok true
    unexpected := some "attribute lookup failed" }

/-- A concrete email pull environment: the server lists one already
seen id and one new id, all fetches succeed. -/
def demo_email_env : EmailEnv :=
  { connect := .ok (), search_ok := true,
    inbox := [("seen1", true), ("new1", true)], loop_fault := none }

/-- A concrete iteration whose callback faults on a one-message
batch. -/
def faulty_iter_env : IterEnv :=
  { batch := [sample_msg], callback_fault := some "boom" }

/-- A stop flag that is still set for iteration 0 and cleared before
iteration 1. -/
def stop_after_first : Nat → Bool := fun k => k == 0

/-! ## Theorems -/

/-- C5: `process_message` never raises past its boundary — it is a
total function into plain outcomes — and whenever a fault escapes the
`try` block, the `except` handler converts it into the error outcome of
`_create_error_result`, a well-formed `Errored` dictionary carrying
`status = "error"`, the message's id and channel, the fault text as
`error`, and `response_sent = false`; nothing propagates to
`process_messages` or the polling loop. -/
theorem uncaught_fault_becomes_errored_outcome (env : StageEnv) (msg : Message)
    (e : String) (h : process_message_body env msg = .error e) :
    process_message env msg = (create_error_result msg e, []) ∧
    (process_message env msg).1.status = "error" ∧
    (process_message env msg).1.message_id = msg.message_id ∧
    (process_message env msg).1.channel = msg.channel ∧
    (process_message env msg).1.error = some e ∧
    (process_message env msg).1.response_sent = false := by
  have hp : process_message env msg = (create_error_result msg e, []) := by
    simp only [process_message, h]
  refine ⟨hp, ?_, ?_, ?_, ?_, ?_⟩ <;> rw [hp] <;> rfl

/-- Witness for C5 at a concrete faulting environment. -/
theorem uncaught_fault_becomes_errored_outcome_app :
    process_message unexpected_fault_env sample_msg =
      (create_error_result sample_msg "attribute lookup failed", []) ∧
    (process_message unexpected_fault_env sample_msg).1.status = "error" ∧
    (process_message unexpected_fault_env sample_msg).1.message_id = sample_msg.message_id ∧
    (process_message unexpected_fault_env sample_msg).1.channel = sample_msg.channel ∧
    (process_message unexpected_fault_env sample_msg).1.error =
      some "attribute lookup failed" ∧
    (process_message unexpected_fault_env sample_msg).1.response_sent = false :=
  uncaught_fault_becomes_errored_outcome unexpected_fault_env sample_msg
    "attribute lookup failed" rfl

/-- C1, counterexample: a run whose classification stage fails ends in
the `Errored` state, yet no response-send attempt is made (the
send-attempt trace is empty) and `response_sent` is `false` even though
the channel's send would have returned `true`
(`classify_fails_env.send_call = .ok true`): the error outcome comes
from `_create_error_result`, which performs no send and hard-codes
`response_sent = False`, so the respond-on-failure invariant does not
hold in the code. -/
theorem errored_run_attempts_no_send_cex :
    (process_message classify_fails_env sample_msg).1.status = "error" ∧
    (process_message classify_fails_env sample_msg).2 = [] ∧
    classify_fails_env.send_call = .ok true ∧
    (process_message classify_fails_env sample_msg).1.response_sent = false :=
  ⟨rfl, rfl, rfl, rfl⟩

/-- C1, amended: for every `PipelineRun` that ends in the `Errored`
state (status `"error"`: classification failure, task-creation failure,
or an unexpected fault), no response-send attempt to the sender occurs
and the returned outcome's `response_sent` field is `false`. -/
theorem errored_run_attempts_no_send (env : StageEnv) (msg : Message)
    (h : (process_message env msg).1.status = "error") :
    (process_message env msg).2 = [] ∧
    (process_message env msg).1.response_sent = false := by
  unfold process_message process_message_body at *
  cases hu : env.unexpected with
  | some e => simp [hu] at h ⊢; exact rfl
  | none =>
    cases hc : classify_message env with
    | none => simp [hu, hc] at h ⊢; exact rfl
    | some c =>
      cases ht : create_task env with
      | none => simp [hu, hc, ht] at h ⊢; exact rfl
      | some t =>
        simp only [hu, hc, ht] at h
        by_cases hs : (execute_task env).execution_status = some "success" <;>
          simp [hs] at h

/-- Witness for the amended C1 at a concrete errored run. -/
theorem errored_run_attempts_no_send_app :
    (process_message classify_fails_env sample_msg).2 = [] ∧
    (process_message classify_fails_env sample_msg).1.response_sent = false :=
  errored_run_attempts_no_send classify_fails_env sample_msg rfl

/-- C9: for every run that reaches the Execute stage (classification
and task creation both produced a value and no unexpected fault), the
outcome's `status` is `"success"` exactly when the execution result's
`execution_status` is `"success"` and `"failed"` otherwise — computed
from the execution result alone, independent of the delivery boolean —
the outcome carries that execution result, and `response_sent` is
exactly what the send attempt returned; in particular a failed send
leaves the execution result in the outcome and records
`response_sent = false`. -/
theorem executed_run_status_reflects_execution (env : StageEnv) (msg : Message)
    (c : Classification) (t : TaskData)
    (hu : env.unexpected = none)
    (hc : classify_message env = some c)
    (ht : create_task env = some t) :
    ((process_message env msg).1.status = "success" ↔
       (execute_task env).execution_status = some "success") ∧
    ((process_message env msg).1.status = "failed" ↔
       ¬(execute_task env).execution_status = some "success") ∧
    (process_message env msg).1.execution = some (execute_task env) ∧
    (process_message env msg).1.response_sent =
      (send_response env msg (execute_task env)).1 ∧
    ((send_response env msg (execute_task env)).1 = false →
       (process_message env msg).1.execution = some (execute_task env) ∧
       (process_message env msg).1.response_sent = false) := by
  unfold process_message process_message_body
  simp only [hu, hc, ht]
  by_cases hs : (execute_task env).execution_status = some "success" <;> simp [hs]

/-- Witness for C9: a send-failure environment still reports the
successful execution result with `response_sent = false`. -/
theorem executed_run_status_reflects_execution_app :
    ((process_message send_fails_env sample_msg).1.status = "success" ↔
       (execute_task send_fails_env).execution_status = some "success") ∧
    ((process_message send_fails_env sample_msg).1.status = "failed" ↔
       ¬(execute_task send_fails_env).execution_status = some "success") ∧
    (process_message send_fails_env sample_msg).1.execution =
      some (execute_task send_fails_env) ∧
    (process_message send_fails_env sample_msg).1.response_sent =
      (send_response send_fails_env sample_msg (execute_task send_fails_env)).1 ∧
    ((send_response send_fails_env sample_msg (execute_task send_fails_env)).1 = false →
       (process_message send_fails_env sample_msg).1.execution =
         some (execute_task send_fails_env) ∧
       (process_message send_fails_env sample_msg).1.response_sent = false) :=
  executed_run_status_reflects_execution send_fails_env sample_msg
    { action_id := "A7", category := "policy" }
    { task_id := "t1", action_type := "update" } rfl rfl rfl

/-- C10: when the Execute stage raises `e`, `_execute_task` converts it
into the execution result `{execution_status := "failed", error := e,
user_response := "An error occurred while processing your request."}`,
and — unlike classification and task-creation failures — the run still
proceeds to the response-send stage (exactly one send attempt, carrying
the fixed apology text), returning overall status `"failed"` rather
than `"error"`, with the classification and task slots populated. -/
theorem execute_stage_fault_is_failed_run (env : StageEnv) (msg : Message)
    (e : String) (c : Classification) (t : TaskData)
    (he : env.execute_call = .error e)
    (hu : env.unexpected = none)
    (hc : classify_message env = some c)
    (ht : create_task env = some t) :
    execute_task env =
      { execution_status := some "failed", error := some e,
        user_response := some "An error occurred while processing your request." } ∧
    (process_message env msg).1.status = "failed" ∧
    (process_message env msg).1.status ≠ "error" ∧
    (process_message env msg).1.classification = some c ∧
    (process_message env msg).1.task = some t ∧
    (process_message env msg).1.execution = some (execute_task env) ∧
    (process_message env msg).2 =
      [{ channel := msg.channel, recipient := msg.sender,
         content := "An error occurred while processing your request." }] := by
  have hex : execute_task env =
      { execution_status := some "failed", error := some e,
        user_response := some "An error occurred while processing your request." } := by
    simp [execute_task, he]
  unfold process_message process_message_body
  simp only [hu, hc, ht]
  refine ⟨hex, ?_, ?_, ?_, ?_, ?_, ?_⟩ <;>
    simp only [hex, send_response] <;>
    cases hsend : env.send_call <;> simp

/-- Witness for C10 at a concrete raising Execute stage. -/
theorem execute_stage_fault_is_failed_run_app :
    execute_task execute_raises_env =
      { execution_status := some "failed", error := some "IDIT 500",
        user_response := some "An error occurred while processing your request." } ∧
    (process_message execute_raises_env sample_msg).1.status = "failed" ∧
    (process_message execute_raises_env sample_msg).1.status ≠ "error" ∧
    (process_message execute_raises_env sample_msg).1.classification =
      some { action_id := "A7", category := "policy" } ∧
    (process_message execute_raises_env sample_msg).1.task =
      some { task_id := "t1", action_type := "update" } ∧
    (process_message execute_raises_env sample_msg).1.execution =
      some (execute_task execute_raises_env) ∧
    (process_message execute_raises_env sample_msg).2 =
      [{ channel := sample_msg.channel, recipient := sample_msg.sender,
         content := "An error occurred while processing your request." }] :=
  execute_stage_fault_is_failed_run execute_raises_env sample_msg
    "IDIT 500" { action_id := "A7", category := "policy" }
    { task_id := "t1", action_type := "update" } rfl rfl rfl rfl

/-- The `extend` loop of `pull_all_messages`, started from any
accumulator, appends exactly the concatenation of the successful
results. -/
lemma pull_all_messages_foldl (results : List (Except String (List Message)))
    (acc : List Message) :
    results.foldl
      (fun all_messages r =>
        match r with
        | .ok msgs => all_messages ++ msgs
        | .error _ => all_messages)
      acc = acc ++ (results.filterMap Except.toOption).flatten := by
  induction results generalizing acc with
  | nil => simp
  | cons r rest ih =>
    cases r with
    | ok msgs => simp [List.foldl_cons, ih, Except.toOption]
    | error e => simp [List.foldl_cons, ih, Except.toOption]

/-- C3: the aggregated pull is exactly the concatenation, in adapter
order, of the message lists of the adapters whose pull succeeded —
each adapter's internal ordering preserved — so a failing adapter
(an `.error` slot from `asyncio.gather`) never loses another adapter's
messages; and the aggregator is a total function, raising nothing. -/
theorem aggregated_pull_is_join_of_successes
    (results : List (Except String (List Message))) :
    pull_all_messages results = (results.filterMap Except.toOption).flatten := by
  simpa using pull_all_messages_foldl results []

/-- C4: `process_messages` returns one outcome per input message,
index-aligned: the result has the input's length, its `i`-th element is
the outcome of the task launched for the `i`-th input message, and a
task that completed with an exception is replaced by the well-formed
error outcome for that same input message (status `"error"`, that
message's id and channel, `response_sent = false`). -/
theorem process_many_index_aligned (run : Message → Except String Outcome)
    (messages : List Message) :
    (process_messages run messages).length = messages.length ∧
    (∀ (i : Nat) (hi : i < messages.length)
        (hr : i < (process_messages run messages).length),
      (process_messages run messages)[i] =
        (match run messages[i] with
         | .ok r => r
         | .error e => create_error_result messages[i] e) ∧
      (∀ e, run messages[i] = .error e →
        (process_messages run messages)[i] = create_error_result messages[i] e ∧
        ((process_messages run messages)[i]).status = "error" ∧
        ((process_messages run messages)[i]).message_id = messages[i].message_id ∧
        ((process_messages run messages)[i]).channel = messages[i].channel ∧
        ((process_messages run messages)[i]).response_sent = false)) := by
  constructor
  · simp [process_messages]
  · intro i hi hr
    have hget : (process_messages run messages)[i] =
        (match run messages[i] with
         | .ok r => r
         | .error e => create_error_result messages[i] e) := by
      simp [process_messages]
    refine ⟨hget, ?_⟩
    intro e he
    rw [hget, he]
    exact ⟨rfl, rfl, rfl, rfl, rfl⟩

/-- Witness for C4: a two-message batch whose second task completed
with an exception. -/
theorem process_many_index_aligned_app :
    let msg2 : Message :=
      { message_id := "43", channel := "whatsapp", sender := "u2",
        content := "hello", timestamp := "2025-01-01T00:01:00", metadata_subject := "" }
    let run : Message → Except String Outcome := fun m =>
      if m.message_id = "43" then .error "task fault"
      else .ok (create_error_result m "unused")
    (process_messages run [sample_msg, msg2]).length = 2 ∧
    (process_messages run [sample_msg, msg2])[1] =
      create_error_result msg2 "task fault" ∧
    ((process_messages run [sample_msg, msg2])[1]).status = "error" ∧
    ((process_messages run [sample_msg, msg2])[1]).message_id = "43" := by
  intro msg2 run
  have h := process_many_index_aligned run [sample_msg, msg2]
  have h2 := (h.2 1 (by decide) (by rw [h.1]; decide)).2 "task fault" rfl
  exact ⟨by rw [h.1]; rfl, h2.1, h2.2.1, by rw [h2.2.2.1]; rfl⟩

/-- The per-message loop only adds ids to the processed set. -/
lemma scan_inbox_subset_seen (inbox : List (String × Bool)) (processed : List String) :
    processed ⊆ (scan_inbox processed inbox).2 := by
  induction inbox generalizing processed with
  | nil => simp [scan_inbox]
  | cons p rest ih =>
    obtain ⟨id, ok⟩ := p
    by_cases hmem : id ∈ processed
    · simpa [scan_inbox, hmem] using ih processed
    · cases ok with
      | false => simpa [scan_inbox, hmem] using ih processed
      | true =>
        simp only [scan_inbox, hmem, if_false, if_true, Bool.false_eq_true, ite_false,
          ite_true]
        exact fun a ha => ih (id :: processed) (List.mem_cons_of_mem _ ha)

/-- Every id the per-message loop delivers was not in the processed set
when the pull began. -/
lemma scan_inbox_delivered_fresh (inbox : List (String × Bool)) (processed : List String)
    (id : String) (h : id ∈ (scan_inbox processed inbox).1) : id ∉ processed := by
  induction inbox generalizing processed with
  | nil => simp [scan_inbox] at h
  | cons p rest ih =>
    obtain ⟨i, ok⟩ := p
    by_cases hmem : i ∈ processed
    · rw [show scan_inbox processed ((i, ok) :: rest) = scan_inbox processed rest by
        simp [scan_inbox, hmem]] at h
      exact ih processed h
    · cases ok with
      | false =>
        rw [show scan_inbox processed ((i, false) :: rest) = scan_inbox processed rest by
          simp [scan_inbox, hmem]] at h
        exact ih processed h
      | true =>
        rw [show scan_inbox processed ((i, true) :: rest) =
            ((scan_inbox (i :: processed) rest).1.cons i,
             (scan_inbox (i :: processed) rest).2) by
          simp [scan_inbox, hmem]] at h
        rcases List.mem_cons.mp h with rfl | h
        · exact hmem
        · exact fun hmem2 =>
            ih (i :: processed) h (List.mem_cons_of_mem _ hmem2)

/-- Every id the per-message loop delivers is in the processed set when
the pull returns. -/
lemma scan_inbox_delivered_seen (inbox : List (String × Bool)) (processed : List String)
    (id : String) (h : id ∈ (scan_inbox processed inbox).1) :
    id ∈ (scan_inbox processed inbox).2 := by
  induction inbox generalizing processed with
  | nil => simp [scan_inbox] at h
  | cons p rest ih =>
    obtain ⟨i, ok⟩ := p
    by_cases hmem : i ∈ processed
    · rw [show scan_inbox processed ((i, ok) :: rest) = scan_inbox processed rest by
        simp [scan_inbox, hmem]] at h ⊢
      exact ih processed h
    · cases ok with
      | false =>
        rw [show scan_inbox processed ((i, false) :: rest) = scan_inbox processed rest by
          simp [scan_inbox, hmem]] at h ⊢
        exact ih processed h
      | true =>
        rw [show scan_inbox processed ((i, true) :: rest) =
            ((scan_inbox (i :: processed) rest).1.cons i,
             (scan_inbox (i :: processed) rest).2) by
          simp [scan_inbox, hmem]] at h ⊢
        rcases List.mem_cons.mp h with rfl | h
        · exact scan_inbox_subset_seen rest (id :: processed) (List.mem_cons_self id processed)
        · exact ih (i :: processed) h

/-- `email_pull` only grows the handler's processed set. -/
lemma email_pull_subset_seen (processed : List String) (env : EmailEnv) :
    processed ⊆ (email_pull processed env).2 := by
  obtain ⟨con, sok, inbox, lf⟩ := env
  cases con with
  | error e => cases lf <;> simp [email_pull, email_pull_body]
  | ok u =>
    cases sok with
    | false => cases lf <;> simp [email_pull, email_pull_body]
    | true =>
      cases lf with
      | none =>
        simpa [email_pull, email_pull_body] using scan_inbox_subset_seen inbox processed
      | some ke =>
        obtain ⟨k, e⟩ := ke
        simpa [email_pull, email_pull_body] using
          scan_inbox_subset_seen (inbox.take k) processed

/-- Ids delivered by `email_pull` were not previously seen. -/
lemma email_pull_delivered_fresh (processed : List String) (env : EmailEnv)
    (id : String) (h : id ∈ (email_pull processed env).1) : id ∉ processed := by
  obtain ⟨con, sok, inbox, lf⟩ := env
  cases con with
  | error e => cases lf <;> simp [email_pull, email_pull_body] at h
  | ok u =>
    cases sok with
    | false => cases lf <;> simp [email_pull, email_pull_body] at h
    | true =>
      cases lf with
      | none =>
        simp [email_pull, email_pull_body] at h
        exact scan_inbox_delivered_fresh inbox processed id h
      | some ke =>
        obtain ⟨k, e⟩ := ke
        simp [email_pull, email_pull_body] at h

/-- Ids delivered by `email_pull` are in the returned processed set. -/
lemma email_pull_delivered_seen (processed : List String) (env : EmailEnv)
    (id : String) (h : id ∈ (email_pull processed env).1) :
    id ∈ (email_pull processed env).2 := by
  obtain ⟨con, sok, inbox, lf⟩ := env
  cases con with
  | error e => cases lf <;> simp [email_pull, email_pull_body] at h
  | ok u =>
    cases sok with
    | false => cases lf <;> simp [email_pull, email_pull_body] at h
    | true =>
      cases lf with
      | none =>
        simp [email_pull, email_pull_body] at h ⊢
        exact scan_inbox_delivered_seen inbox processed id h
      | some ke =>
        obtain ⟨k, e⟩ := ke
        simp [email_pull, email_pull_body] at h

/-- `whatsapp_pull` only grows the handler's processed set. -/
lemma whatsapp_pull_subset_seen (processed : List String) (env : WhatsAppEnv) :
    processed ⊆ (whatsapp_pull processed env).2 := by
  obtain ⟨req, parsed, lf⟩ := env
  cases req with
  | error e => cases lf <;> simp [whatsapp_pull, whatsapp_pull_body]
  | ok code =>
    by_cases hs : code = 200
    · cases lf with
      | none =>
        simpa [whatsapp_pull, whatsapp_pull_body, hs] using
          scan_inbox_subset_seen (parsed.map fun i => (i, true)) processed
      | some ke =>
        obtain ⟨k, e⟩ := ke
        simpa [whatsapp_pull, whatsapp_pull_body, hs] using
          scan_inbox_subset_seen ((parsed.map fun i => (i, true)).take k) processed
    · cases lf <;> simp [whatsapp_pull, whatsapp_pull_body, hs]

/-- Ids delivered by `whatsapp_pull` were not previously seen. -/
lemma whatsapp_pull_delivered_fresh (processed : List String) (env : WhatsAppEnv)
    (id : String) (h : id ∈ (whatsapp_pull processed env).1) : id ∉ processed := by
  obtain ⟨req, parsed, lf⟩ := env
  cases req with
  | error e => cases lf <;> simp [whatsapp_pull, whatsapp_pull_body] at h
  | ok code =>
    by_cases hs : code = 200
    · cases lf with
      | none =>
        simp [whatsapp_pull, whatsapp_pull_body, hs] at h
        exact scan_inbox_delivered_fresh (parsed.map fun i => (i, true)) processed id h
      | some ke =>
        obtain ⟨k, e⟩ := ke
        simp [whatsapp_pull, whatsapp_pull_body, hs] at h
    · cases lf <;> simp [whatsapp_pull, whatsapp_pull_body, hs] at h

/-- Ids delivered by `whatsapp_pull` are in the returned processed
set. -/
lemma whatsapp_pull_delivered_seen (processed : List String) (env : WhatsAppEnv)
    (id : String) (h : id ∈ (whatsapp_pull processed env).1) :
    id ∈ (whatsapp_pull processed env).2 := by
  obtain ⟨req, parsed, lf⟩ := env
  cases req with
  | error e => cases lf <;> simp [whatsapp_pull, whatsapp_pull_body] at h
  | ok code =>
    by_cases hs : code = 200
    · cases lf with
      | none =>
        simp [whatsapp_pull, whatsapp_pull_body, hs] at h ⊢
        exact scan_inbox_delivered_seen (parsed.map fun i => (i, true)) processed id h
      | some ke =>
        obtain ⟨k, e⟩ := ke
        simp [whatsapp_pull, whatsapp_pull_body, hs] at h
    · cases lf <;> simp [whatsapp_pull, whatsapp_pull_body, hs] at h

/-- An id already in the processed set is delivered by no later pull of
the run. -/
lemma pull_runs_excluded {ε : Type}
    (pull : List String → ε → List String × List String)
    (mono : ∀ s e, s ⊆ (pull s e).2)
    (fresh : ∀ s e id, id ∈ (pull s e).1 → id ∉ s)
    (envs : List ε) :
    ∀ (s : List String) (id : String), id ∈ s →
      ∀ b ∈ (pull_runs pull s envs).1, id ∉ b := by
  induction envs with
  | nil => intro s id _ b hb; simp [pull_runs] at hb
  | cons e rest ih =>
    intro s id hid b hb
    rcases List.mem_cons.mp hb with rfl | hb
    · exact fun hmem => fresh s e id hmem hid
    · exact ih (pull s e).2 id (mono s e hid) b hb

/-- Batches delivered by a run of pulls are pairwise disjoint: an id
delivered once is delivered by no later pull. -/
lemma pull_runs_pairwise {ε : Type}
    (pull : List String → ε → List String × List String)
    (mono : ∀ s e, s ⊆ (pull s e).2)
    (fresh : ∀ s e id, id ∈ (pull s e).1 → id ∉ s)
    (dseen : ∀ s e id, id ∈ (pull s e).1 → id ∈ (pull s e).2)
    (envs : List ε) :
    ∀ s : List String,
      List.Pairwise (fun b1 b2 => ∀ id ∈ b1, id ∉ b2) (pull_runs pull s envs).1 := by
  induction envs with
  | nil => intro s; simp [pull_runs]
  | cons e rest ih =>
    intro s
    refine List.Pairwise.cons ?_ (ih (pull s e).2)
    intro b hb id hid
    exact pull_runs_excluded pull mono fresh rest (pull s e).2 id (dseen s e id hid) b hb

/-- The processed set grows monotonically across a run of pulls. -/
lemma pull_runs_subset_seen {ε : Type}
    (pull : List String → ε → List String × List String)
    (mono : ∀ s e, s ⊆ (pull s e).2)
    (envs : List ε) :
    ∀ s : List String, s ⊆ (pull_runs pull s envs).2 := by
  induction envs with
  | nil => intro s; simp [pull_runs]
  | cons e rest ih =>
    intro s
    exact List.Subset.trans (mono s e) (ih (pull s e).2)

/-- C6: per channel, over any sequence of pulls within one process
lifetime (the handler's `processed_messages` set threaded through), the
delivered batches are pairwise disjoint — once a `(channel,
message_id)` pair is returned from a pull it is delivered by no later
pull — the observed-id set grows monotonically, and an id already seen
is permanently excluded; stated for the email handler and the WhatsApp
handler. -/
theorem consumed_id_never_redelivered (processed : List String)
    (email_envs : List EmailEnv) (wa_envs : List WhatsAppEnv) :
    List.Pairwise (fun b1 b2 => ∀ id ∈ b1, id ∉ b2)
      (pull_runs email_pull processed email_envs).1 ∧
    processed ⊆ (pull_runs email_pull processed email_envs).2 ∧
    (∀ id ∈ processed, ∀ b ∈ (pull_runs email_pull processed email_envs).1, id ∉ b) ∧
    List.Pairwise (fun b1 b2 => ∀ id ∈ b1, id ∉ b2)
      (pull_runs whatsapp_pull processed wa_envs).1 ∧
    processed ⊆ (pull_runs whatsapp_pull processed wa_envs).2 ∧
    (∀ id ∈ processed, ∀ b ∈ (pull_runs whatsapp_pull processed wa_envs).1, id ∉ b) := by
  refine ⟨?_, ?_, ?_, ?_, ?_, ?_⟩
  · exact pull_runs_pairwise email_pull email_pull_subset_seen
      email_pull_delivered_fresh email_pull_delivered_seen email_envs processed
  · exact pull_runs_subset_seen email_pull email_pull_subset_seen email_envs processed
  · exact fun id hid => pull_runs_excluded email_pull email_pull_subset_seen
      email_pull_delivered_fresh email_envs processed id hid
  · exact pull_runs_pairwise whatsapp_pull whatsapp_pull_subset_seen
      whatsapp_pull_delivered_fresh whatsapp_pull_delivered_seen wa_envs processed
  · exact pull_runs_subset_seen whatsapp_pull whatsapp_pull_subset_seen wa_envs processed
  · exact fun id hid => pull_runs_excluded whatsapp_pull whatsapp_pull_subset_seen
      whatsapp_pull_delivered_fresh wa_envs processed id hid

/-- Witness for C6 at a concrete run: the previously seen id is not in
the batch the concrete pull delivers. -/
theorem consumed_id_never_redelivered_app :
    "seen1" ∉ (email_pull ["seen1"] demo_email_env).1 :=
  (consumed_id_never_redelivered ["seen1"] [demo_email_env] []).2.2.1 "seen1"
    (by decide) (email_pull ["seen1"] demo_email_env).1 (by simp [pull_runs])

/-- C7: each channel adapter's pull is a total function into a finite
message list that never raises past its boundary: its delivered list is
the body's on success and `[]` whenever the body raised (the
`except Exception` handler); in particular a connection failure returns
`([], unchanged set)`, a raising WhatsApp request likewise, and a
non-200 WhatsApp status yields the empty list. -/
theorem adapter_pull_never_raises (processed : List String)
    (envE : EmailEnv) (envW : WhatsAppEnv) :
    (email_pull processed envE).1 =
      (match email_pull_body processed envE with
       | .ok r => r.1
       | .error _ => []) ∧
    (∀ e, email_pull_body processed envE = .error e →
       (email_pull processed envE).1 = []) ∧
    (∀ e, envE.connect = .error e → email_pull processed envE = ([], processed)) ∧
    (whatsapp_pull processed envW).1 =
      (match whatsapp_pull_body processed envW with
       | .ok r => r.1
       | .error _ => []) ∧
    (∀ e, whatsapp_pull_body processed envW = .error e →
       (whatsapp_pull processed envW).1 = []) ∧
    (∀ e, envW.request = .error e → whatsapp_pull processed envW = ([], processed)) ∧
    (∀ code, envW.request = .ok code → code ≠ 200 →
       (whatsapp_pull processed envW).1 = []) := by
  obtain ⟨con, sok, inbox, lf⟩ := envE
  obtain ⟨req, parsed, lfw⟩ := envW
  have hemail : (email_pull processed ⟨con, sok, inbox, lf⟩).1 =
      (match email_pull_body processed ⟨con, sok, inbox, lf⟩ with
       | .ok r => r.1
       | .error _ => []) := by
    cases con <;> cases sok <;> cases lf <;> simp [email_pull, email_pull_body]
  have hwa : (whatsapp_pull processed ⟨req, parsed, lfw⟩).1 =
      (match whatsapp_pull_body processed ⟨req, parsed, lfw⟩ with
       | .ok r => r.1
       | .error _ => []) := by
    cases req with
    | error e => cases lfw <;> simp [whatsapp_pull, whatsapp_pull_body]
    | ok code =>
      by_cases hc : code = 200 <;> cases lfw <;>
        simp [whatsapp_pull, whatsapp_pull_body, hc]
  refine ⟨hemail, ?_, ?_, hwa, ?_, ?_, ?_⟩
  · intro e he
    rw [hemail, he]
  · intro e he
    cases he
    cases lf <;> simp [email_pull, email_pull_body]
  · intro e he
    rw [hwa, he]
  · intro e he
    cases he
    cases lfw <;> simp [whatsapp_pull, whatsapp_pull_body]
  · intro code hc hne
    cases hc
    cases lfw <;> simp [whatsapp_pull, whatsapp_pull_body, hne]

/-- Witness for C7: a concrete connection failure and a concrete
non-200 WhatsApp response both deliver nothing. -/
theorem adapter_pull_never_raises_app :
    email_pull ["x"] { connect := .error "imap down", search_ok := true,
                       inbox := [("a", true)], loop_fault := none } = ([], ["x"]) ∧
    (whatsapp_pull ["x"] { request := .ok 500, parsed := ["b"],
                           loop_fault := none }).1 = [] := by
  have h := adapter_pull_never_raises ["x"]
    { connect := .error "imap down", search_ok := true,
      inbox := [("a", true)], loop_fault := none }
    { request := .ok 500, parsed := ["b"], loop_fault := none }
  exact ⟨h.2.2.1 "imap down" rfl, h.2.2.2.2.2.2 500 rfl (by decide)⟩

/-- C8: the polling loop: every iteration's trace starts with the
aggregate pull and ends with the interval sleep (also when the
callback faulted — the fault is logged, not rethrown); the callback
runs exactly when the pulled batch is non-empty; while the flag read at
the top of iteration `k` is true the loop performs iteration `k` and
continues with iteration `k + 1` regardless of any fault inside
iteration `k`, and when that flag is false the loop stops having run
nothing further; `stop_polling` only clears the flag, leaving the rest
of the service state unchanged. -/
theorem polling_loop_iterates_until_stopped :
    (∀ env : IterEnv, (poll_iteration env).head? = some PollEv.pull_all) ∧
    (∀ env : IterEnv, (poll_iteration env).getLast? = some PollEv.sleep_interval) ∧
    (∀ env : IterEnv,
       (PollEv.process_batch env.batch.length ∈ poll_iteration env ↔ env.batch ≠ [])) ∧
    (∀ (running : Nat → Bool) (envs : Nat → IterEnv) (fuel k : Nat),
       running k = true →
         start_polling running envs (fuel + 1) k =
           (k, poll_iteration (envs k)) :: start_polling running envs fuel (k + 1)) ∧
    (∀ (running : Nat → Bool) (envs : Nat → IterEnv) (fuel k : Nat),
       running k = false → start_polling running envs (fuel + 1) k = []) ∧
    (∀ s : ServiceState,
       (stop_polling s).is_running = false ∧
       (stop_polling s).poll_interval = s.poll_interval) := by
  refine ⟨?_, ?_, ?_, ?_, ?_, ?_⟩
  · intro env
    simp [poll_iteration]
  · intro env
    by_cases hb : env.batch.isEmpty <;> cases hf : env.callback_fault <;>
      simp [poll_iteration, hb, hf]
  · intro env
    by_cases hb : env.batch.isEmpty <;> cases hf : env.callback_fault <;>
      simp [poll_iteration, hb, hf, List.isEmpty_iff] <;>
      simp [← List.isEmpty_iff, hb]
  · intro running envs fuel k hk
    simp [start_polling, hk]
  · intro running envs fuel k hk
    simp [start_polling, hk]
  · intro s
    exact ⟨rfl, rfl⟩

/-- Witness for C8: one faulting iteration at a concrete stop flag
still ends in a sleep and the loop runs it, then observes the cleared
flag and stops. -/
theorem polling_loop_iterates_until_stopped_app :
    (poll_iteration faulty_iter_env).getLast? = some PollEv.sleep_interval ∧
    start_polling stop_after_first (fun _ => faulty_iter_env) 2 0 =
      [(0, poll_iteration faulty_iter_env)] := by
  have h := polling_loop_iterates_until_stopped
  refine ⟨h.2.1 faulty_iter_env, ?_⟩
  rw [h.2.2.2.1 stop_after_first (fun _ => faulty_iter_env) 1 0 (by decide),
    h.2.2.2.2.1 stop_after_first (fun _ => faulty_iter_env) 0 1 (by decide)]

/-- Splitting the gate-slot count around one task's state. -/
lemma active_count_append (l r : List TaskState) (s : TaskState) :
    active_count (l ++ s :: r) =
      active_count l + (if s.holds_slot then 1 else 0) + active_count r := by
  simp [active_count, List.countP_append, List.countP_cons]
  omega

/-- A batch starts with no slot held. -/
lemma active_count_initial (m : Nat) : active_count (initial_batch m) = 0 := by
  induction m with
  | zero => rfl
  | succ m ih =>
    simp only [initial_batch, List.replicate_succ, active_count, List.countP_cons] at ih ⊢
    simp [TaskState.holds_slot, ih]

/-- One gate step keeps the held-slot count within the capacity. -/
lemma gate_step_preserves_bound (n : Nat) (ts ts' : List TaskState)
    (hstep : GateStep n ts ts') (h : active_count ts ≤ n) : active_count ts' ≤ n := by
  cases hstep with
  | acquire l r hlt =>
    rw [active_count_append] at hlt ⊢
    simp [TaskState.holds_slot] at hlt ⊢
    omega
  | advance l r k hk =>
    rw [active_count_append] at h ⊢
    simpa [TaskState.holds_slot] using h
  | finish l r k =>
    rw [active_count_append] at h ⊢
    simp [TaskState.holds_slot] at h ⊢
    omega

/-- C2: the semaphore of capacity `n` bounds concurrency — in every
state reachable by a batch of `process_message` tasks from the initial
all-waiting state, the number of tasks simultaneously inside a pipeline
stage (holding a gate slot) is at most `n`.  The step relation itself
encodes the guaranteed release: `finish` — the only exit from
`active` — frees the slot from any stage, covering normal return, the
stage-failure early returns and the `except` path, because all of them
leave the `async with` block. -/
theorem gate_bounds_active_runs (n m : Nat) (ts : List TaskState)
    (h : Relation.ReflTransGen (GateStep n) (initial_batch m) ts) :
    active_count ts ≤ n := by
  induction h with
  | refl => simp [active_count_initial]
  | tail hsteps hstep ih => exact gate_step_preserves_bound n _ _ hstep ih

/-- Witness for C2: with capacity 1 and a batch of two tasks, the state
after one admission keeps the held-slot count within the bound. -/
theorem gate_bounds_active_runs_app :
    active_count [TaskState.active 0, TaskState.waiting] ≤ 1 := by
  have step : GateStep 1 (initial_batch 2) [TaskState.active 0, TaskState.waiting] := by
    have hacq : GateStep 1 ([] ++ TaskState.waiting :: [TaskState.waiting])
        ([] ++ TaskState.active 0 :: [TaskState.waiting]) :=
      GateStep.acquire [] [TaskState.waiting] (by decide)
    simpa [initial_batch] using hacq
  exact gate_bounds_active_runs 1 2 _ (Relation.ReflTransGen.single step)

end MultiAgent
